import Mathlib

/-!
Verification of the DLWP "Train on Azure" notebook (src/Azure/Train on Azure.ipynb).

The notebook is a linear orchestration script: it resolves a workspace handle,
provisions (or reuses) a GPU compute cluster, obtains the default datastore,
builds a TensorFlow estimator descriptor, submits it to an experiment, and can
cancel the resulting run.  We embed the notebook's local computation shallowly:
the process environment is a partial map from variable names to strings, Python
values that can be a string, an integer, or None are a small sum type, remote
SDK interactions are recorded as explicit request traces, and the remote SDK
operations themselves (which live outside this repository) are modelled from
the specification where a claim depends on them.
-/

/-- The process environment: a partial map from variable names to string values,
as seen by Python's os.environ. -/
def Env : Type := String → Option String

/-- A Python value as used by the notebook: a string (every environment variable
value is a string), an integer literal, or None. -/
inductive PyVal : Type
  | none : PyVal
  | int : Int → PyVal
  | str : String → PyVal
deriving DecidableEq, Repr

/-- Whether a Python value is a literal (string or integer) as opposed to None. -/
def PyVal.isLiteral : PyVal → Bool
  | PyVal.none => false
  | PyVal.int _ => true
  | PyVal.str _ => true

/-- Python os.environ.get(key, default): the string stored in the environment
when the variable is set, the supplied default otherwise. -/
def osEnvironGetD (env : Env) (key : String) (default : PyVal) : PyVal :=
  match env key with
  | Option.some v => PyVal.str v
  | Option.none => default

/-- Python os.environ.get(key) with no default argument: the implicit default is
None. -/
def osEnvironGet (env : Env) (key : String) : PyVal :=
  osEnvironGetD env key PyVal.none

/-- os.environ.get for a key whose supplied default is a string, so the result
is always a string; used for the cluster name, which the notebook then uses as
a dictionary key. -/
def osEnvironGetStr (env : Env) (key : String) (default : String) : String :=
  match env key with
  | Option.some v => v
  | Option.none => default

/-- The kind of a compute-target object registered in a workspace: an AmlCompute
instance, or some other compute-target type (Python `type(x) is AmlCompute`). -/
inductive ComputeTargetKind : Type
  | amlCompute : ComputeTargetKind
  | otherType : ComputeTargetKind
deriving DecidableEq, Repr

/-- A compute-target handle as stored in the workspace's compute_targets
dictionary: its runtime type, and its Python truthiness (an SDK object is
truthy; a None entry would not be). -/
structure ComputeTargetHandle : Type where
  kind : ComputeTargetKind
  truthy : Bool
deriving DecidableEq, Repr

/-- A datastore descriptor: the attributes the notebook reads from the
workspace's default datastore. -/
structure Datastore : Type where
  datastore_type : String
  account_name : String
  container_name : String
deriving DecidableEq, Repr

/-- A workspace handle: the remotely resolved state the notebook observes.
compute_targets is the workspace's name-indexed compute-target dictionary. -/
structure Workspace : Type where
  name : String
  resource_group : String
  compute_targets : List (String × ComputeTargetHandle)
  default_datastore : Datastore

/-- The arguments the notebook passes to Workspace.get (cell 3): a hard-coded
workspace name and resource group, and the subscription id read from the
environment with no default (so it is None when the variable is unset). -/
structure WorkspaceGetArgs : Type where
  name : String
  subscription_id : PyVal
  resource_group : String
deriving DecidableEq, Repr

/-- Cell 3 of the notebook: the Workspace.get call with
subscription_id = os.environ.get('AZURE_SUBSCRIPTION_ID'). -/
def workspaceGetArgs (env : Env) : WorkspaceGetArgs :=
  { name := "dlwp-ml-1"
    subscription_id := osEnvironGet env "AZURE_SUBSCRIPTION_ID"
    resource_group := "DLWP" }

/-- The compute-cluster configuration resolved from the environment in cell 5:
cluster name, min/max node counts, and VM SKU, each with its literal default.
The name is always a string; the node counts and SKU keep the Python value the
notebook produces (the raw environment string when set, the literal default
otherwise). -/
structure ComputeConfig : Type where
  compute_name : String
  compute_min_nodes : PyVal
  compute_max_nodes : PyVal
  vm_size : PyVal
deriving DecidableEq, Repr

/-- Lines 78-83 of the notebook: the four os.environ.get calls with their
literal defaults. -/
def resolveComputeConfig (env : Env) : ComputeConfig :=
  { compute_name := osEnvironGetStr env "AML_COMPUTE_CLUSTER_NAME" "dlwp-compute-1"
    compute_min_nodes := osEnvironGetD env "AML_COMPUTE_CLUSTER_MIN_NODES" (PyVal.int 0)
    compute_max_nodes := osEnvironGetD env "AML_COMPUTE_CLUSTER_MAX_NODES" (PyVal.int 2)
    vm_size := osEnvironGetD env "AML_COMPUTE_CLUSTER_SKU" (PyVal.str "STANDARD_NV6") }

/-- The provisioning configuration built by AmlCompute.provisioning_configuration:
the VM SKU and node bounds exactly as passed (no conversion is applied). -/
structure ProvisioningConfig : Type where
  vm_size : PyVal
  min_nodes : PyVal
  max_nodes : PyVal
deriving DecidableEq, Repr

/-- AmlCompute.provisioning_configuration(vm_size, min_nodes, max_nodes):
packages the three arguments unchanged. -/
def AmlCompute.provisioning_configuration
    (vm_size min_nodes max_nodes : PyVal) : ProvisioningConfig :=
  { vm_size := vm_size, min_nodes := min_nodes, max_nodes := max_nodes }

/-- A creation request issued to the provider by ComputeTarget.create: the
target name and the provisioning configuration it carries. -/
structure CreateRequest : Type where
  name : String
  config : ProvisioningConfig
deriving DecidableEq, Repr

/-- A wait_for_completion call as issued by the notebook: show_output,
min_node_count (None in the notebook) and the timeout in minutes. -/
structure WaitCall : Type where
  show_output : Bool
  min_node_count : Option Nat
  timeout_in_minutes : Nat
deriving DecidableEq, Repr

/-- ComputeTarget.create(ws, name, config): returns the handle of the freshly
created AmlCompute target together with the creation request it issues. -/
def ComputeTarget.create (name : String) (config : ProvisioningConfig) :
    ComputeTargetHandle × CreateRequest :=
  ({ kind := ComputeTargetKind.amlCompute, truthy := true },
   { name := name, config := config })

/-- The observable outcome of running cell 5 (the compute-provisioning cell):
the creation requests and wait calls issued to the provider, the final binding
of the local compute_target variable (Option.none would mean the name was never
assigned), and the lines printed. -/
structure ProvisionResult : Type where
  createRequests : List CreateRequest
  waitCalls : List WaitCall
  compute_target : Option ComputeTargetHandle
  printed : List String
deriving DecidableEq, Repr

/-- Cell 5 of the notebook: resolve the configuration from the environment,
then either find the existing target under the configured name (printing a
message only when it is truthy and of type AmlCompute) or create a new one and
wait for it. -/
def provisionCompute (env : Env) (ws : Workspace) : ProvisionResult :=
  match ws.compute_targets.lookup (resolveComputeConfig env).compute_name with
  | Option.some ct =>
      { createRequests := []
        waitCalls := []
        compute_target := Option.some ct
        printed :=
          if ct.truthy = true ∧ ct.kind = ComputeTargetKind.amlCompute then
            ["found compute target (" ++ (resolveComputeConfig env).compute_name ++ ")"]
          else [] }
  | Option.none =>
      let cfg := resolveComputeConfig env
      let provisioning_config :=
        AmlCompute.provisioning_configuration cfg.vm_size cfg.compute_min_nodes cfg.compute_max_nodes
      let created := ComputeTarget.create cfg.compute_name provisioning_config
      { createRequests := [created.2]
        waitCalls := [{ show_output := true, min_node_count := Option.none, timeout_in_minutes := 10 }]
        compute_target := Option.some created.1
        printed := ["creating a new compute target (" ++ cfg.compute_name ++ ")"] }

/-- The state a compute provider reports for a cluster: a status string and the
number of nodes currently available. -/
structure ProviderReport : Type where
  status : String
  current_node_count : Nat
deriving DecidableEq, Repr

/-- Modelled from the spec: ComputeTarget.wait_for_completion is SDK code that
is not part of this repository.  Per the spec it blocks up to the call's
timeout waiting for minimum node availability and then returns whatever state
the provider reports, without raising even when the minimum was not reached; we
model it as the total function returning the provider's report. -/
def wait_for_completion (report : ProviderReport) (call : WaitCall) : ProviderReport :=
  let _ := call
  report

/-- ws.get_default_datastore(): returns the workspace's default datastore
descriptor. -/
def Workspace.get_default_datastore (ws : Workspace) : Datastore :=
  ws.default_datastore

/-- A symbolic data path: a datastore together with a path on it, as produced
by ds.path(folder). -/
structure DataPath : Type where
  datastore : Datastore
  path_on_datastore : String
deriving DecidableEq, Repr

/-- The access mode of a data reference; the notebook only uses mount. -/
inductive RefMode : Type
  | mount : RefMode
deriving DecidableEq, Repr

/-- A symbolic data reference: a datastore, a path on it and an access mode.
Constructing one performs no data movement. -/
structure DataReference : Type where
  datastore : Datastore
  path_on_datastore : String
  mode : RefMode
deriving DecidableEq, Repr

/-- ds.path(p): constructs a symbolic path on the datastore. -/
def Datastore.path (ds : Datastore) (p : String) : DataPath :=
  { datastore := ds, path_on_datastore := p }

/-- path.as_mount(): turns a symbolic path into a mount-mode data reference. -/
def DataPath.as_mount (p : DataPath) : DataReference :=
  { datastore := p.datastore, path_on_datastore := p.path_on_datastore, mode := RefMode.mount }

/-- An upload call to a datastore, the only data-movement operation the
notebook mentions (it appears only in a comment and is never invoked). -/
structure UploadCall : Type where
  src_dir : String
  target_path : String
  overwrite : Bool
deriving DecidableEq, Repr

/-- ds.upload(...): the data-movement operation; returns the upload event it
would issue.  Present in the notebook only as a commented-out line. -/
def Datastore.upload (ds : Datastore) (src_dir target_path : String) (overwrite : Bool) :
    UploadCall :=
  let _ := ds
  { src_dir := src_dir, target_path := target_path, overwrite := overwrite }

/-- A value of the script_params mapping: a plain string or a data reference. -/
inductive ParamVal : Type
  | strVal : String → ParamVal
  | refVal : DataReference → ParamVal
deriving DecidableEq, Repr

/-- The script_params mapping of cell 11, in source order: the five
command-line flags with their configured values. -/
def script_params (ds : Datastore) : List (String × ParamVal) :=
  [("--root-directory", ParamVal.refVal ((ds.path "DLWP").as_mount)),
   ("--predictor-file", ParamVal.strVal "cfs_1979-2010_hgt-thick_300-500-700_NH_T2.nc"),
   ("--model-file", ParamVal.strVal "dlwp_tau-lstm"),
   ("--log-directory", ParamVal.strVal "logs/tau-lstm"),
   ("--temp-dir", ParamVal.strVal "/mnt/tmp")]

/-- Python os.path.join for the simple two-component case used by the
notebook. -/
def osPathJoin (a b : String) : String :=
  a ++ "/" ++ b

/-- Python os.pardir. -/
def osPardir : String := ".."

/-- The TensorFlow estimator descriptor of cell 11: the job descriptor the
notebook passes to experiment submission. -/
structure TensorFlowEstimator : Type where
  source_directory : String
  script_params : List (String × ParamVal)
  compute_target : Option ComputeTargetHandle
  entry_script : String
  conda_packages : List String
  pip_packages : List String
  use_gpu : Bool
deriving DecidableEq, Repr

/-- Cell 11 of the notebook: build the TensorFlow estimator from the datastore
reference, the compute target bound in cell 5 and the current working
directory. -/
def buildEstimator (ds : Datastore) (target : Option ComputeTargetHandle) (cwd : String) :
    TensorFlowEstimator :=
  { source_directory := osPathJoin cwd osPardir
    script_params := script_params ds
    compute_target := target
    entry_script := osPathJoin cwd "train_tf.py"
    conda_packages := ["scikit-learn", "netCDF4", "dask", "xarray"]
    pip_packages := ["keras"]
    use_gpu := true }

/-- An experiment handle: a named grouping of runs in a workspace. -/
structure Experiment : Type where
  workspace_name : String
  name : String
deriving DecidableEq, Repr

/-- A run handle returned by experiment submission. -/
structure Run : Type where
  experiment : Experiment
  config : TensorFlowEstimator
deriving DecidableEq

/-- exp.submit(config): asynchronous submission, returning the run handle
immediately. -/
def Experiment.submit (e : Experiment) (config : TensorFlowEstimator) : Run :=
  { experiment := e, config := config }

/-- An operation performed against a run handle, as seen by the provider. -/
inductive RunOp : Type
  | cancelRequest : RunOp
  | confirmationPoll : RunOp
  | blockingWait : RunOp
deriving DecidableEq, Repr

/-- Modelled from the spec: Run.cancel is SDK code that is not part of this
repository.  Per the spec, cancellation is a single fire-and-forget request on
the run handle with no confirmation polling and no blocking wait; we model it
as the list of provider operations one call performs. -/
def Run.cancel (r : Run) : List RunOp :=
  let _ := r
  [RunOp.cancelRequest]

/-- Cell 14 of the notebook: the single run.cancel() call. -/
def cancelCell (r : Run) : List RunOp :=
  Run.cancel r

/-- The observable outcome of executing the notebook's cells in order. -/
structure NotebookState : Type where
  wsArgs : WorkspaceGetArgs
  provision : ProvisionResult
  ds : Datastore
  uploads : List UploadCall
  experiment : Experiment
  estimator : TensorFlowEstimator
  run : Run
deriving DecidableEq

/-- The executed flow of the notebook (cells 3, 5, 7, 9, 11, 13): workspace
resolution, compute provisioning, default-datastore lookup (the upload call is
commented out, so the upload trace is empty), experiment creation, estimator
construction and submission. -/
def notebookFlow (env : Env) (ws : Workspace) (cwd : String) : NotebookState :=
  let args := workspaceGetArgs env
  let prov := provisionCompute env ws
  let ds := ws.get_default_datastore
  let e : Experiment := { workspace_name := ws.name, name := "dlwp" }
  let est := buildEstimator ds prov.compute_target cwd
  { wsArgs := args
    provision := prov
    ds := ds
    uploads := []
    experiment := e
    estimator := est
    run := e.submit est }

/-! ## Concrete fixtures used by witnesses and counterexamples -/

/-- An environment with no variables set. -/
def envEmpty : Env := fun _ => Option.none

/-- A sample datastore descriptor, as printed by the recorded notebook run. -/
def dsSample : Datastore :=
  { datastore_type := "AzureBlob"
    account_name := "dlwpml10633119839"
    container_name := "azureml-blobstore-ba10431a" }

/-- An existing AmlCompute target. -/
def amlTarget : ComputeTargetHandle :=
  { kind := ComputeTargetKind.amlCompute, truthy := true }

/-- An existing compute target that is not an AmlCompute instance. -/
def otherTarget : ComputeTargetHandle :=
  { kind := ComputeTargetKind.otherType, truthy := true }

/-- A workspace whose compute-target map has an AmlCompute entry under the
default cluster name. -/
def wsWithAml : Workspace :=
  { name := "dlwp-ml-1"
    resource_group := "DLWP"
    compute_targets := [("dlwp-compute-1", amlTarget)]
    default_datastore := dsSample }

/-- A workspace with an empty compute-target map. -/
def wsEmptyTargets : Workspace :=
  { name := "dlwp-ml-1"
    resource_group := "DLWP"
    compute_targets := []
    default_datastore := dsSample }

/-- A workspace whose entry under the default cluster name is not an
AmlCompute instance. -/
def wsWrongType : Workspace :=
  { name := "dlwp-ml-1"
    resource_group := "DLWP"
    compute_targets := [("dlwp-compute-1", otherTarget)]
    default_datastore := dsSample }

/-- An environment setting both node-count variables to raw strings. -/
def envNodesSet : Env := fun k =>
  if k = "AML_COMPUTE_CLUSTER_MIN_NODES" then Option.some "3"
  else if k = "AML_COMPUTE_CLUSTER_MAX_NODES" then Option.some "5"
  else Option.none

/-! ## Claims -/

/-- C1: when the workspace's compute-target map already holds an AmlCompute
entry under the configured cluster name, cell 5 issues no creation request and
no wait call, and binds compute_target to that existing entry. -/
theorem c1_existing_amlcompute_reused (env : Env) (ws : Workspace)
    (ct : ComputeTargetHandle)
    (hfound : ws.compute_targets.lookup (resolveComputeConfig env).compute_name =
      Option.some ct)
    (hkind : ct.kind = ComputeTargetKind.amlCompute) :
    (provisionCompute env ws).createRequests = [] ∧
    (provisionCompute env ws).waitCalls = [] ∧
    (provisionCompute env ws).compute_target = Option.some ct := by
  unfold provisionCompute
  rw [hfound]
  exact ⟨rfl, rfl, rfl⟩

/-- C1 witness: the default cluster name found as an AmlCompute entry. -/
theorem c1_existing_amlcompute_reused_witness :
    (provisionCompute envEmpty wsWithAml).createRequests = [] ∧
    (provisionCompute envEmpty wsWithAml).waitCalls = [] ∧
    (provisionCompute envEmpty wsWithAml).compute_target = Option.some amlTarget :=
  c1_existing_amlcompute_reused envEmpty wsWithAml amlTarget rfl rfl

/-- C2: when the configured cluster name is absent from the workspace's
compute-target map, cell 5 issues exactly one creation request, carrying
exactly the configured VM SKU and node bounds. -/
theorem c2_absent_name_single_create (env : Env) (ws : Workspace)
    (habsent : ws.compute_targets.lookup (resolveComputeConfig env).compute_name =
      Option.none) :
    (provisionCompute env ws).createRequests =
      [{ name := (resolveComputeConfig env).compute_name
         config := { vm_size := (resolveComputeConfig env).vm_size
                     min_nodes := (resolveComputeConfig env).compute_min_nodes
                     max_nodes := (resolveComputeConfig env).compute_max_nodes } }] := by
  unfold provisionCompute
  rw [habsent]
  rfl

/-- C2 witness: an empty compute-target map with all defaults. -/
theorem c2_absent_name_single_create_witness :
    (provisionCompute envEmpty wsEmptyTargets).createRequests =
      [{ name := "dlwp-compute-1"
         config := { vm_size := PyVal.str "STANDARD_NV6"
                     min_nodes := PyVal.int 0
                     max_nodes := PyVal.int 2 } }] :=
  c2_absent_name_single_create envEmpty wsEmptyTargets rfl

/-- C3 counterexample: with a wrong-typed entry under the configured name,
cell 5 leaves the local compute_target variable bound to that existing entry —
it is defined (Option.some, not Option.none), so the flow does not proceed with
an undefined compute_target reference; it reuses the wrong-typed handle. -/
theorem c3_wrong_type_counterexample :
    (provisionCompute envEmpty wsWrongType).compute_target = Option.some otherTarget ∧
    (provisionCompute envEmpty wsWrongType).compute_target ≠ Option.none := by
  exact ⟨rfl, by decide⟩

/-- C3 amended: when the entry under the configured cluster name is not an
AmlCompute instance, cell 5 issues no creation request and no wait call,
prints nothing, and binds compute_target to the existing wrong-typed entry
(the type check only gates the log message). -/
theorem c3_wrong_type_silent_bind (env : Env) (ws : Workspace)
    (ct : ComputeTargetHandle)
    (hfound : ws.compute_targets.lookup (resolveComputeConfig env).compute_name =
      Option.some ct)
    (hkind : ct.kind ≠ ComputeTargetKind.amlCompute) :
    (provisionCompute env ws).createRequests = [] ∧
    (provisionCompute env ws).waitCalls = [] ∧
    (provisionCompute env ws).compute_target = Option.some ct ∧
    (provisionCompute env ws).printed = [] := by
  unfold provisionCompute
  rw [hfound]
  refine ⟨rfl, rfl, rfl, ?_⟩
  simp only
  rw [if_neg]
  intro h
  exact hkind h.2

/-- C3 amended witness: a wrong-typed entry under the default cluster name. -/
theorem c3_wrong_type_silent_bind_witness :
    (provisionCompute envEmpty wsWrongType).createRequests = [] ∧
    (provisionCompute envEmpty wsWrongType).waitCalls = [] ∧
    (provisionCompute envEmpty wsWrongType).compute_target = Option.some otherTarget ∧
    (provisionCompute envEmpty wsWrongType).printed = [] :=
  c3_wrong_type_silent_bind envEmpty wsWrongType otherTarget rfl (by decide)

/-- C4: with none of the four compute-cluster environment variables set, the
resolved configuration is exactly the literal defaults: name dlwp-compute-1,
min nodes 0, max nodes 2, SKU STANDARD_NV6. -/
theorem c4_unset_env_gives_defaults (env : Env)
    (h1 : env "AML_COMPUTE_CLUSTER_NAME" = Option.none)
    (h2 : env "AML_COMPUTE_CLUSTER_MIN_NODES" = Option.none)
    (h3 : env "AML_COMPUTE_CLUSTER_MAX_NODES" = Option.none)
    (h4 : env "AML_COMPUTE_CLUSTER_SKU" = Option.none) :
    resolveComputeConfig env =
      { compute_name := "dlwp-compute-1"
        compute_min_nodes := PyVal.int 0
        compute_max_nodes := PyVal.int 2
        vm_size := PyVal.str "STANDARD_NV6" } := by
  unfold resolveComputeConfig osEnvironGetD osEnvironGetStr
  rw [h1, h2, h3, h4]

/-- C4 witness: the empty environment. -/
theorem c4_unset_env_gives_defaults_witness :
    resolveComputeConfig envEmpty =
      { compute_name := "dlwp-compute-1"
        compute_min_nodes := PyVal.int 0
        compute_max_nodes := PyVal.int 2
        vm_size := PyVal.str "STANDARD_NV6" } :=
  c4_unset_env_gives_defaults envEmpty rfl rfl rfl rfl

/-- C5: the job descriptor passed to submission carries exactly the five
documented command-line flags with the configured values, has use_gpu true,
and exactly the conda packages scikit-learn, netCDF4, dask, xarray and the pip
package keras. -/
theorem c5_job_descriptor_exact (env : Env) (ws : Workspace) (cwd : String) :
    (notebookFlow env ws cwd).estimator.script_params =
      [("--root-directory", ParamVal.refVal
          { datastore := ws.default_datastore
            path_on_datastore := "DLWP"
            mode := RefMode.mount }),
       ("--predictor-file", ParamVal.strVal "cfs_1979-2010_hgt-thick_300-500-700_NH_T2.nc"),
       ("--model-file", ParamVal.strVal "dlwp_tau-lstm"),
       ("--log-directory", ParamVal.strVal "logs/tau-lstm"),
       ("--temp-dir", ParamVal.strVal "/mnt/tmp")] ∧
    (notebookFlow env ws cwd).estimator.use_gpu = true ∧
    (notebookFlow env ws cwd).estimator.conda_packages =
      ["scikit-learn", "netCDF4", "dask", "xarray"] ∧
    (notebookFlow env ws cwd).estimator.pip_packages = ["keras"] :=
  ⟨rfl, rfl, rfl, rfl⟩

/-- C6 counterexample: the subscription id is consumed without any literal
fallback default — with the variable unset it resolves to Python None, which is
not a literal. -/
theorem c6_subscription_no_literal_default :
    (workspaceGetArgs envEmpty).subscription_id = PyVal.none ∧
    PyVal.isLiteral (workspaceGetArgs envEmpty).subscription_id = false :=
  ⟨rfl, rfl⟩

/-- C6 amended: the four compute-cluster variables are read with literal
fallback defaults used when unset, while the subscription id is read with no
default and resolves to None when unset. -/
theorem c6_env_reads_amended (env : Env)
    (h1 : env "AML_COMPUTE_CLUSTER_NAME" = Option.none)
    (h2 : env "AML_COMPUTE_CLUSTER_MIN_NODES" = Option.none)
    (h3 : env "AML_COMPUTE_CLUSTER_MAX_NODES" = Option.none)
    (h4 : env "AML_COMPUTE_CLUSTER_SKU" = Option.none)
    (h5 : env "AZURE_SUBSCRIPTION_ID" = Option.none) :
    (resolveComputeConfig env).compute_name = "dlwp-compute-1" ∧
    (resolveComputeConfig env).compute_min_nodes = PyVal.int 0 ∧
    (resolveComputeConfig env).compute_max_nodes = PyVal.int 2 ∧
    (resolveComputeConfig env).vm_size = PyVal.str "STANDARD_NV6" ∧
    PyVal.isLiteral (resolveComputeConfig env).compute_min_nodes = true ∧
    PyVal.isLiteral (resolveComputeConfig env).compute_max_nodes = true ∧
    PyVal.isLiteral (resolveComputeConfig env).vm_size = true ∧
    (workspaceGetArgs env).subscription_id = PyVal.none := by
  unfold resolveComputeConfig workspaceGetArgs osEnvironGet osEnvironGetD osEnvironGetStr
  rw [h1, h2, h3, h4, h5]
  exact ⟨rfl, rfl, rfl, rfl, rfl, rfl, rfl, rfl⟩

/-- C6 amended witness: the empty environment. -/
theorem c6_env_reads_amended_witness :
    (resolveComputeConfig envEmpty).compute_name = "dlwp-compute-1" ∧
    (resolveComputeConfig envEmpty).compute_min_nodes = PyVal.int 0 ∧
    (resolveComputeConfig envEmpty).compute_max_nodes = PyVal.int 2 ∧
    (resolveComputeConfig envEmpty).vm_size = PyVal.str "STANDARD_NV6" ∧
    PyVal.isLiteral (resolveComputeConfig envEmpty).compute_min_nodes = true ∧
    PyVal.isLiteral (resolveComputeConfig envEmpty).compute_max_nodes = true ∧
    PyVal.isLiteral (resolveComputeConfig envEmpty).vm_size = true ∧
    (workspaceGetArgs envEmpty).subscription_id = PyVal.none :=
  c6_env_reads_amended envEmpty rfl rfl rfl rfl rfl

/-- C7: after issuing a creation request, cell 5 issues exactly one wait call
with a 10-minute timeout (show_output true, no min_node_count), and the wait
returns whatever state the provider reports — it is a total function that does
not fail the process even when the minimum node count was not reached. -/
theorem c7_create_then_bounded_wait (env : Env) (ws : Workspace)
    (report : ProviderReport)
    (habsent : ws.compute_targets.lookup (resolveComputeConfig env).compute_name =
      Option.none) :
    (provisionCompute env ws).waitCalls =
      [{ show_output := true, min_node_count := Option.none, timeout_in_minutes := 10 }] ∧
    wait_for_completion report
      { show_output := true, min_node_count := Option.none, timeout_in_minutes := 10 } =
      report := by
  unfold provisionCompute
  rw [habsent]
  exact ⟨rfl, rfl⟩

/-- C7 witness: an empty compute-target map, and a provider report of a cluster
that has not yet reached its minimum node count. -/
theorem c7_create_then_bounded_wait_witness :
    (provisionCompute envEmpty wsEmptyTargets).waitCalls =
      [{ show_output := true, min_node_count := Option.none, timeout_in_minutes := 10 }] ∧
    wait_for_completion { status := "Resizing", current_node_count := 0 }
      { show_output := true, min_node_count := Option.none, timeout_in_minutes := 10 } =
      { status := "Resizing", current_node_count := 0 } :=
  c7_create_then_bounded_wait envEmpty wsEmptyTargets
    { status := "Resizing", current_node_count := 0 } rfl

/-- C8: invoking cancel on a submitted run issues exactly one cancellation
request to the provider and performs no confirmation polling and no blocking
wait. -/
theorem c8_cancel_single_request (r : Run) :
    (cancelCell r).count RunOp.cancelRequest = 1 ∧
    RunOp.confirmationPoll ∉ cancelCell r ∧
    RunOp.blockingWait ∉ cancelCell r := by
  refine ⟨rfl, ?_, ?_⟩ <;> simp [cancelCell, Run.cancel]

/-- C9: the data-reference step returns the workspace's default datastore, the
root-directory parameter is the symbolic mount reference for the DLWP folder,
and the executed flow performs no upload — its data-movement trace is empty. -/
theorem c9_data_reference_no_data_movement (env : Env) (ws : Workspace) (cwd : String) :
    (notebookFlow env ws cwd).ds = ws.default_datastore ∧
    (notebookFlow env ws cwd).estimator.script_params.lookup "--root-directory" =
      Option.some (ParamVal.refVal
        { datastore := ws.default_datastore
          path_on_datastore := "DLWP"
          mode := RefMode.mount }) ∧
    (notebookFlow env ws cwd).uploads = [] := by
  refine ⟨rfl, ?_, rfl⟩
  simp [notebookFlow, buildEstimator, script_params, Workspace.get_default_datastore,
    Datastore.path, DataPath.as_mount, List.lookup]

/-- C10: when the node-count environment variables are set, the creation
request carries their raw string values with no integer conversion; when they
are unset, it carries the integer defaults 0 and 2 — so the Python type of the
node bounds depends on whether the variable was set. -/
theorem c10_node_bounds_raw_strings (env envU : Env) (ws wsU : Workspace)
    (s t : String)
    (hmin : env "AML_COMPUTE_CLUSTER_MIN_NODES" = Option.some s)
    (hmax : env "AML_COMPUTE_CLUSTER_MAX_NODES" = Option.some t)
    (habs : ws.compute_targets.lookup (resolveComputeConfig env).compute_name =
      Option.none)
    (huMin : envU "AML_COMPUTE_CLUSTER_MIN_NODES" = Option.none)
    (huMax : envU "AML_COMPUTE_CLUSTER_MAX_NODES" = Option.none)
    (habsU : wsU.compute_targets.lookup (resolveComputeConfig envU).compute_name =
      Option.none) :
    ((provisionCompute env ws).createRequests.map fun r =>
      (r.config.min_nodes, r.config.max_nodes)) = [(PyVal.str s, PyVal.str t)] ∧
    ((provisionCompute envU wsU).createRequests.map fun r =>
      (r.config.min_nodes, r.config.max_nodes)) = [(PyVal.int 0, PyVal.int 2)] := by
  constructor
  · unfold provisionCompute
    rw [habs]
    simp only [List.map_cons, List.map_nil]
    unfold ComputeTarget.create AmlCompute.provisioning_configuration
      resolveComputeConfig osEnvironGetD
    rw [hmin, hmax]
  · unfold provisionCompute
    rw [habsU]
    simp only [List.map_cons, List.map_nil]
    unfold ComputeTarget.create AmlCompute.provisioning_configuration
      resolveComputeConfig osEnvironGetD
    rw [huMin, huMax]

/-- C10 witness: min set to the string 3 and max to the string 5 in one
environment, both unset in the other. -/
theorem c10_node_bounds_raw_strings_witness :
    ((provisionCompute envNodesSet wsEmptyTargets).createRequests.map fun r =>
      (r.config.min_nodes, r.config.max_nodes)) =
      [(PyVal.str "3", PyVal.str "5")] ∧
    ((provisionCompute envEmpty wsEmptyTargets).createRequests.map fun r =>
      (r.config.min_nodes, r.config.max_nodes)) = [(PyVal.int 0, PyVal.int 2)] :=
  c10_node_bounds_raw_strings envNodesSet envEmpty wsEmptyTargets wsEmptyTargets
    "3" "5" rfl rfl rfl rfl rfl rfl
